import Mathlib

/-!
Verification development for the dolomite-engine configuration subsystem.

The Python sources are embedded shallowly:
* `Engine` models `src/engine/arguments.py` (pydantic schema nodes whose
  `model_post_init` hooks run assertion checks at construction time;
  construction failure is modelled as `Except.error` carrying the assertion
  message).
* `Dolomite` models `src/dolomite_engine/distributed/deepspeed.py`
  (the process-wide cached derivation of the deepspeed backend config).
-/

namespace Engine

/-- Single-quote character, used to reproduce Python assertion messages. -/
def sq : String := (Char.ofNat 39).toString

/-- Tuning method enum (`TuningMethod` from `enums.py`; the module body is not
in the sources, its three members are taken from their uses in
`arguments.py`: `full_finetuning`, `prompt_tuning`, `lora`). -/
inductive TuningMethod where
  | full_finetuning
  | prompt_tuning
  | lora
deriving DecidableEq, Repr

/-- `peft.PromptTuningInit` enum: members `RANDOM` and `TEXT` as used in
`PromptTuningArgs.model_post_init`. -/
inductive PromptTuningInit where
  | RANDOM
  | TEXT
deriving DecidableEq, Repr

/-- `AttentionImplementation` enum (`enums.py` body not in the sources; the
code only tests whether the field is set, so a single member suffices to
model it). -/
inductive AttentionImplementation where
  | flash_attention
deriving DecidableEq, Repr

/-- `src/engine/arguments.py::PromptTuningArgs` raw fields
(`Optional` pydantic fields become `Option`). -/
structure PromptTuningArgs where
  prompt_tuning_init : Option PromptTuningInit
  prompt_tuning_init_text : Option String
  num_virtual_tokens : Option Int
deriving DecidableEq, Repr

/-- `PromptTuningArgs.model_post_init`: `prompt_tuning_init` must not be
`None`; with `RANDOM` init the init text is forbidden, with `TEXT` init it is
required. -/
def PromptTuningArgs.postInit (a : PromptTuningArgs) : Except String Unit :=
  match a.prompt_tuning_init with
  | none => .error "prompt_tuning_init cannot be None"
  | some .RANDOM =>
      match a.prompt_tuning_init_text with
      | some t =>
          .error ("prompt_tuning_init_text " ++ sq ++ t ++ sq ++
            " was specified with RANDOM init method")
      | none => .ok ()
  | some .TEXT =>
      match a.prompt_tuning_init_text with
      | none => .error "prompt_tuning_init_text needs to be specified with TEXT init method"
      | some _ => .ok ()

/-- `src/engine/arguments.py::LoRAArgs` raw fields.  The float-valued
hyperparameters `lora_alpha` and `lora_dropout` are never inspected by any
validation rule; they are carried as opaque rational values. -/
structure LoRAArgs where
  lora_rank : Option Int
  lora_alpha : Rat
  lora_dropout : Rat
deriving DecidableEq, Repr

/-- `LoRAArgs.model_post_init`: `lora_rank` must not be `None`. -/
def LoRAArgs.postInit (a : LoRAArgs) : Except String Unit :=
  match a.lora_rank with
  | none => .error "lora_rank cannot be None"
  | some _ => .ok ()

/-- `src/engine/arguments.py::TuningArgs` raw fields. -/
structure TuningArgs where
  tuning_method : Option TuningMethod
  prompt_tuning_args : Option PromptTuningArgs
  lora_args : Option LoRAArgs
deriving DecidableEq, Repr

/-- `TuningArgs.model_post_init`: `tuning_method` must not be `None`; with
`full_finetuning` both sub-configs are forbidden; with `prompt_tuning` the
lora sub-config is forbidden; with `lora` the prompt-tuning sub-config is
forbidden. -/
def TuningArgs.postInit (a : TuningArgs) : Except String Unit :=
  match a.tuning_method with
  | none => .error "tuning_method cannot be None"
  | some .full_finetuning =>
      if a.prompt_tuning_args.isSome then
        .error "prompt_tuning_args should not be specified with full_finetuning"
      else if a.lora_args.isSome then
        .error "lora_args should not be specified with full_finetuning"
      else .ok ()
  | some .prompt_tuning =>
      if a.lora_args.isSome then
        .error "lora_args should not be specified with promt_tuning"
      else .ok ()
  | some .lora =>
      if a.prompt_tuning_args.isSome then
        .error "prompt_tuning_args should not be specified with lora"
      else .ok ()

/-- `Except.error`-ness, decidably. -/
def isErr {α : Type} (e : Except String α) : Bool :=
  match e with
  | .error _ => true
  | .ok _ => false

/-- Sequential validation: run the first check; if it raises, that error is
the result (Python assertion failure aborts construction), otherwise run the
second. -/
def seqE (x y : Except String Unit) : Except String Unit :=
  match x with
  | .error e => .error e
  | .ok _ => y

/-- Validate an optional child section: absent sections validate trivially
(pydantic only constructs and validates the sections the raw config
supplies). -/
def optValid {α : Type} (f : α → Except String Unit) : Option α → Except String Unit
  | some a => f a
  | none => .ok ()

/-- Validate every element of a list-valued child section. -/
def listValid {α : Type} (f : α → Except String Unit) : List α → Except String Unit
  | [] => .ok ()
  | a :: rest => seqE (f a) (listValid f rest)

/-- Pydantic constructs and validates nested models before the parent's
`model_post_init` runs: resolving a `TuningArgs` section validates the
sub-configs that are present, then runs the section's own post-init. -/
def TuningArgs.resolve (a : TuningArgs) : Except String Unit :=
  seqE (optValid PromptTuningArgs.postInit a.prompt_tuning_args)
    (seqE (optValid LoRAArgs.postInit a.lora_args) a.postInit)

/-- Torch dtype objects, by their canonical attribute name on the `torch`
module (the subset relevant to the dtype whitelist check plus representative
non-floating dtypes). -/
inductive TorchDtype where
  | float32
  | float64
  | float16
  | bfloat16
  | int8
  | int16
  | int32
  | int64
  | uint8
  | bool
deriving DecidableEq, Repr

/-- Canonical name of a torch dtype; `str(d)` in Python is `"torch." ++ d.name`. -/
def TorchDtype.name : TorchDtype → String
  | .float32 => "float32"
  | .float64 => "float64"
  | .float16 => "float16"
  | .bfloat16 => "bfloat16"
  | .int8 => "int8"
  | .int16 => "int16"
  | .int32 => "int32"
  | .int64 => "int64"
  | .uint8 => "uint8"
  | .bool => "bool"

/-- `getattr(torch, s)` restricted to dtype attributes: returns the dtype
object for a canonical dtype name or for one of torch's alias attributes
(`torch.float` is `torch.float32`, `torch.half` is `torch.float16`,
`torch.double` is `torch.float64`, `torch.short` / `torch.int` /
`torch.long` are the integer dtypes), and fails (AttributeError, modelled
as `none`) for any other string. -/
def torch_getattr_dtype (s : String) : Option TorchDtype :=
  if s = "float32" then some .float32
  else if s = "float" then some .float32
  else if s = "float64" then some .float64
  else if s = "double" then some .float64
  else if s = "float16" then some .float16
  else if s = "half" then some .float16
  else if s = "bfloat16" then some .bfloat16
  else if s = "int8" then some .int8
  else if s = "int16" then some .int16
  else if s = "short" then some .int16
  else if s = "int32" then some .int32
  else if s = "int" then some .int32
  else if s = "int64" then some .int64
  else if s = "long" then some .int64
  else if s = "uint8" then some .uint8
  else if s = "bool" then some .bool
  else none

/-- The model class installed on `self.model_class` by
`ModelArgs.model_post_init`: one of the two generic transformers auto-model
classes, or the specialized `GPTMegatronForCausalLM` from `ibm_models`. -/
inductive ResolvedModelClass where
  | AutoModelForCausalLM
  | AutoModelForSeq2SeqLM
  | GPTMegatronForCausalLM
deriving DecidableEq, Repr

/-- `src/engine/arguments.py::ModelArgs` raw fields. -/
structure ModelArgs where
  model_name : Option String
  model_class : Option String
  dtype : String
  trust_remote_code : Bool
  attention_implementation : Option AttentionImplementation
deriving DecidableEq, Repr

/-- The model-class branch of `ModelArgs.model_post_init`: with
`attention_implementation` unset, `model_class` must name one of the two
auto classes, which is then looked up on `transformers`; with it set, the
generic lookup is bypassed and `GPTMegatronForCausalLM` is imported from
`ibm_models`, failing if that package is unavailable. -/
def resolveModelClass (ibm_models_available : Bool)
    (attention_implementation : Option AttentionImplementation)
    (model_class : String) : Except String ResolvedModelClass :=
  match attention_implementation with
  | none =>
      if model_class = "AutoModelForCausalLM" then .ok .AutoModelForCausalLM
      else if model_class = "AutoModelForSeq2SeqLM" then .ok .AutoModelForSeq2SeqLM
      else .error
        "attention implementation is not supported with AutoModelForCausalLM or AutoModelForSeq2SeqLM"
  | some _ =>
      if ibm_models_available then .ok .GPTMegatronForCausalLM
      else .error
        "please pip install ibm-models: https://github.ibm.com/ai-models-architectures/ibm-models"

/-- `ModelArgs.model_post_init`, parameterised by whether the `ibm_models`
package is importable in the environment.  Order of checks follows the
source: the `None`-checks on `model_name` and `model_class`; then the
model-class branch; then `getattr(torch, dtype)` and the dtype whitelist
assertion.  Returns the resolved model class and dtype. -/
def ModelArgs.postInit (ibm_models_available : Bool) (m : ModelArgs) :
    Except String (ResolvedModelClass × TorchDtype) :=
  match m.model_name with
  | none => .error "model_name cannot be None"
  | some _ =>
    match m.model_class with
    | none => .error "model_class cannot be None"
    | some c =>
      match resolveModelClass ibm_models_available m.attention_implementation c with
      | .error e => .error e
      | .ok cls =>
        match torch_getattr_dtype m.dtype with
        | none =>
            .error ("module " ++ sq ++ "torch" ++ sq ++ " has no attribute " ++
              sq ++ m.dtype ++ sq)
        | some d =>
            if d = .float32 ∨ d = .float16 ∨ d = .bfloat16 then .ok (cls, d)
            else .error ("unexpected dtype " ++ sq ++ "torch." ++ d.name ++ sq)

/-- `src/engine/arguments.py::RandomArgs`. -/
structure RandomArgs where
  seed : Int
deriving DecidableEq, Repr

/-- `PaddingSide` enum (body not in the sources; never inspected by a rule). -/
inductive PaddingSide where
  | left
  | right
deriving DecidableEq, Repr

/-- `src/engine/arguments.py::TokenizerArgs`. -/
structure TokenizerArgs where
  additional_special_tokens : Option (List String)
  padding_side : Option PaddingSide
deriving DecidableEq, Repr

/-- `src/engine/arguments.py::TrainingParameters` raw fields. -/
structure TrainingParameters where
  ignore_sampling_proportion_for_validation : Bool
  num_training_steps : Option Int
  gradient_accumulation_steps : Int
  eval_interval : Option Int
  batch_size_per_gpu : Option Int
  eval_during_training : Bool
deriving DecidableEq, Repr

/-- `TrainingParameters.model_post_init`: `num_training_steps` and
`batch_size_per_gpu` must not be `None`; `eval_interval` is required when
`eval_during_training` is enabled. -/
def TrainingParameters.postInit (a : TrainingParameters) : Except String Unit :=
  match a.num_training_steps with
  | none => .error "num_training_steps cannot be None"
  | some _ =>
    match a.batch_size_per_gpu with
    | none => .error "batch_size_per_gpu cannot be None"
    | some _ =>
      if a.eval_during_training then
        match a.eval_interval with
        | none => .error "eval_interval cannot be None"
        | some _ => .ok ()
      else .ok ()

/-- `src/engine/arguments.py::SaveArgs`. -/
structure SaveArgs where
  save_path : Option String
  save_interval : Option Int
deriving DecidableEq, Repr

/-- `SaveArgs.model_post_init`. -/
def SaveArgs.postInit (a : SaveArgs) : Except String Unit :=
  match a.save_path with
  | none => .error "save_path cannot be None"
  | some _ =>
    match a.save_interval with
    | none => .error "save_interval cannot be None"
    | some _ => .ok ()

/-- `src/engine/arguments.py::LoadArgs`. -/
structure LoadArgs where
  load_path : Option String
  iteration : Option Int
deriving DecidableEq, Repr

/-- `LoadArgs.model_post_init`. -/
def LoadArgs.postInit (a : LoadArgs) : Except String Unit :=
  match a.load_path with
  | none => .error "load_path cannot be None"
  | some _ =>
    match a.iteration with
    | none => .error "iteration cannot be None"
    | some _ => .ok ()

/-- `src/engine/arguments.py::DatasetArgs` raw fields (`class_args` is a
free-form mapping that no rule inspects; it is carried opaquely). -/
structure DatasetArgs where
  class_name : Option String
  class_args : List (String × String)
  data_name : Option String
  input_format : String
  output_format : String
  data_sampling_ratio : Option Int
  max_input_tokens : Option Int
  max_output_tokens : Option Int
deriving DecidableEq, Repr

/-- `DatasetArgs.model_post_init`: the `None`-checks on `class_name`,
`data_sampling_ratio` and `data_name` (in that order), then the strict
positivity assertion on `data_sampling_ratio`. -/
def DatasetArgs.postInit (a : DatasetArgs) : Except String Unit :=
  match a.class_name with
  | none => .error "dataset class_name cannot be None"
  | some _ =>
    match a.data_sampling_ratio with
    | none => .error "data_sampling_ratio cannot be None"
    | some r =>
      match a.data_name with
      | none => .error "data_name cannot be None"
      | some _ =>
        if r > 0 then .ok ()
        else .error "data_sampling_ratio should be a positive integer"

/-- `src/engine/arguments.py::OptimizerArgs` (the `class_args` defaults are
a free-form mapping that no rule inspects). -/
structure OptimizerArgs where
  class_name : Option String
  class_args : List (String × String)
deriving DecidableEq, Repr

/-- `OptimizerArgs.model_post_init`. -/
def OptimizerArgs.postInit (a : OptimizerArgs) : Except String Unit :=
  match a.class_name with
  | none => .error "optimizer class_name cannot be None"
  | some _ => .ok ()

/-- `src/engine/arguments.py::LRSchedulerArgs` (no post-init hook). -/
structure LRSchedulerArgs where
  lr_schedule : String
  num_warmup_steps : Int
deriving DecidableEq, Repr

/-- `DistributedBackend` enum (body not in the sources; member `torch` is
used as the default in `DistributedArgs`). -/
inductive DistributedBackend where
  | torch
  | deepspeed
deriving DecidableEq, Repr

/-- `src/engine/arguments.py::DistributedArgs` (no post-init hook). -/
structure DistributedArgs where
  stage : Int
  distributed_backend : DistributedBackend
  overlap_comm : Bool
  contiguous_gradients : Bool
  cpu_offload : Bool
  gradient_checkpointing : Bool
deriving DecidableEq, Repr

/-- `src/engine/arguments.py::LoggingArgs` (no post-init hook). -/
structure LoggingArgs where
  logging_level : String
  log_interval : Int
  aim_repo : Option String
  experiment_name : Option String
deriving DecidableEq, Repr

/-- `src/engine/arguments.py::GenerationParameters` raw fields (float-valued
sampling knobs are carried as opaque rationals; no rule inspects them). -/
structure GenerationParameters where
  batch_size : Option Int
  do_sample : Option Bool
  max_new_tokens : Option Int
  temperature : Option Rat
  top_k : Option Int
  top_p : Option Rat
deriving DecidableEq, Repr

/-- `GenerationParameters.model_post_init`. -/
def GenerationParameters.postInit (a : GenerationParameters) : Except String Unit :=
  match a.batch_size with
  | none => .error "batch_size cannot be None"
  | some _ =>
    match a.max_new_tokens with
    | none => .error "max_new_tokens cannot be None"
    | some _ => .ok ()

/-- `src/engine/arguments.py::_check_datasets`: the list must be non-empty
and the `data_name` identifiers pairwise distinct (Python compares the list
length with the cardinality of the set of names, modelled with `List.dedup`). -/
def _check_datasets (datasets : List DatasetArgs) : Except String Unit :=
  if datasets.length = 0 then .error "datasets cannot be an empty list"
  else if datasets.length = ((datasets.map (fun d => d.data_name)).dedup).length then .ok ()
  else .error "data_name should be unique for each dataset"

/-- `src/engine/arguments.py::TrainingArgs` raw fields. -/
structure TrainingArgs where
  random_args : RandomArgs
  tokenizer_args : TokenizerArgs
  model_args : Option ModelArgs
  tuning_args : Option TuningArgs
  optimizer_args : OptimizerArgs
  lr_scheduler_args : LRSchedulerArgs
  datasets : List DatasetArgs
  save_args : Option SaveArgs
  load_args : Option LoadArgs
  training_parameters : Option TrainingParameters
  logging_args : LoggingArgs
  distributed_args : DistributedArgs
deriving DecidableEq, Repr

/-- `TrainingArgs.model_post_init`: `None`-checks on `model_args`,
`tuning_args`, `save_args` (the check on `datasets` always passes since a
list is never `None`), then `_check_datasets`. -/
def TrainingArgs.postInit (t : TrainingArgs) : Except String Unit :=
  match t.model_args with
  | none => .error "model_args cannot be None"
  | some _ =>
    match t.tuning_args with
    | none => .error "tuning_args cannot be None"
    | some _ =>
      match t.save_args with
      | none => .error "save_args cannot be None"
      | some _ => _check_datasets t.datasets

/-- Resolution of a training-mode raw config: pydantic validates the child
sections that are present (in field declaration order) while constructing
them, then runs `TrainingArgs.model_post_init`. -/
def TrainingArgs.resolve (ibm_models_available : Bool) (t : TrainingArgs) :
    Except String Unit :=
  seqE (optValid (fun m => (m.postInit ibm_models_available).map (fun _ => ())) t.model_args)
    (seqE (optValid TuningArgs.resolve t.tuning_args)
      (seqE t.optimizer_args.postInit
        (seqE (listValid DatasetArgs.postInit t.datasets)
          (seqE (optValid SaveArgs.postInit t.save_args)
            (seqE (optValid LoadArgs.postInit t.load_args)
              (seqE (optValid TrainingParameters.postInit t.training_parameters)
                t.postInit))))))

/-- `src/engine/arguments.py::InferenceArgs` raw fields. -/
structure InferenceArgs where
  random_args : RandomArgs
  tokenizer_args : TokenizerArgs
  model_args : Option ModelArgs
  tuning_args : Option TuningArgs
  datasets : List DatasetArgs
  load_args : Option LoadArgs
  generation_parameters : Option GenerationParameters
  logging_args : LoggingArgs
  output_dir : Option String
deriving DecidableEq, Repr

/-- `InferenceArgs.model_post_init`: `None`-checks on `model_args`,
`tuning_args`, `generation_parameters`, `output_dir` (the check on
`datasets` always passes since a list is never `None`), then
`_check_datasets`. -/
def InferenceArgs.postInit (t : InferenceArgs) : Except String Unit :=
  match t.model_args with
  | none => .error "model_args cannot be None"
  | some _ =>
    match t.tuning_args with
    | none => .error "tuning_args cannot be None"
    | some _ =>
      match t.generation_parameters with
      | none => .error "generation_parameters cannot be None"
      | some _ =>
        match t.output_dir with
        | none => .error "output_dir cannot be None"
        | some _ => _check_datasets t.datasets

/-- Resolution of an inference-mode raw config. -/
def InferenceArgs.resolve (ibm_models_available : Bool) (t : InferenceArgs) :
    Except String Unit :=
  seqE (optValid (fun m => (m.postInit ibm_models_available).map (fun _ => ())) t.model_args)
    (seqE (optValid TuningArgs.resolve t.tuning_args)
      (seqE (listValid DatasetArgs.postInit t.datasets)
        (seqE (optValid LoadArgs.postInit t.load_args)
          (seqE (optValid GenerationParameters.postInit t.generation_parameters)
            t.postInit))))

/-- `src/engine/arguments.py::ExportArgs` raw fields. -/
structure ExportArgs where
  tokenizer_args : TokenizerArgs
  model_args : Option ModelArgs
  tuning_args : Option TuningArgs
  load_args : Option LoadArgs
  logging_args : LoggingArgs
  export_path : Option String
deriving DecidableEq, Repr

/-- `ExportArgs.model_post_init`: `None`-checks on `model_args`,
`tuning_args`, `load_args`, `export_path`. -/
def ExportArgs.postInit (t : ExportArgs) : Except String Unit :=
  match t.model_args with
  | none => .error "model_args cannot be None"
  | some _ =>
    match t.tuning_args with
    | none => .error "tuning_args cannot be None"
    | some _ =>
      match t.load_args with
      | none => .error "load_args cannot be None"
      | some _ =>
        match t.export_path with
        | none => .error "export_path cannot be None"
        | some _ => .ok ()

/-- Resolution of an export-mode raw config. -/
def ExportArgs.resolve (ibm_models_available : Bool) (t : ExportArgs) :
    Except String Unit :=
  seqE (optValid (fun m => (m.postInit ibm_models_available).map (fun _ => ())) t.model_args)
    (seqE (optValid TuningArgs.resolve t.tuning_args)
      (seqE (optValid LoadArgs.postInit t.load_args)
        t.postInit))

/-! ### `BaseArgs.to_dict`

The serializer dispatches on the runtime kind of each field value
(`BaseArgs` instance, list, enum member, class object, anything else), so
the embedding uses a closed tagged union of Python values.  A `BaseArgs`
instance is a `node` of ordered field-name/value pairs; a plain `dict`
value (such as `class_args`) is a distinct `pydict` which the serializer
leaves unchanged. -/

inductive PyVal where
  | node : List (String × PyVal) → PyVal
  | pydict : List (String × PyVal) → PyVal
  | pylist : List PyVal → PyVal
  | enum : String → PyVal
  | typ : String → PyVal
  | str : String → PyVal
  | int : Int → PyVal
  | bool : Bool → PyVal
  | null : PyVal

mutual

/-- `BaseArgs.to_dict`, per field (the body of the `for key, value in copied`
loop): a nested `BaseArgs` converts via `to_dict`; a list keeps only those
elements that are `BaseArgs` instances, converted (the loop appends nothing
for any other element); an enum member converts to its `.value` label; a
class object converts to its `__name__`; every other value is kept as is. -/
def toDictField : PyVal → PyVal
  | .node fs => .pydict (toDictFields fs)
  | .pylist vs => .pylist (toDictList vs)
  | .enum s => .str s
  | .typ s => .str s
  | .pydict d => .pydict d
  | .str s => .str s
  | .int n => .int n
  | .bool b => .bool b
  | .null => .null

/-- The field loop of `BaseArgs.to_dict` over the ordered fields. -/
def toDictFields : List (String × PyVal) → List (String × PyVal)
  | [] => []
  | (k, v) :: rest => (k, toDictField v) :: toDictFields rest

/-- The inner `for v in value` loop of the list branch: only `BaseArgs`
elements are appended (converted); every other element is dropped. -/
def toDictList : List PyVal → List PyVal
  | [] => []
  | .node fs :: rest => .pydict (toDictFields fs) :: toDictList rest
  | .pydict _ :: rest => toDictList rest
  | .pylist _ :: rest => toDictList rest
  | .enum _ :: rest => toDictList rest
  | .typ _ :: rest => toDictList rest
  | .str _ :: rest => toDictList rest
  | .int _ :: rest => toDictList rest
  | .bool _ :: rest => toDictList rest
  | .null :: rest => toDictList rest

end

/-- `BaseArgs.to_dict` on a schema node: convert every field and return the
resulting plain mapping (`vars(copied)`). -/
def to_dict (fields : List (String × PyVal)) : PyVal :=
  .pydict (toDictFields fields)

end Engine

namespace Dolomite

/-! ### `src/dolomite_engine/distributed/deepspeed.py`

`get_deepspeed_config` reads a `TrainingArgs` from
`dolomite_engine/arguments.py`, a module that is not among the sources;
the argument-tree fields it accesses are modelled from the spec.  Python
dicts with heterogeneous values are modelled as ordered association lists
over a tagged value type. -/

/-- A JSON-like value as stored in the deepspeed config dict. -/
inductive DVal where
  | str : String → DVal
  | int : Int → DVal
  | bool : Bool → DVal
  | dict : List (String × DVal) → DVal

/-- An ordered Python dict. -/
abbrev Dict := List (String × DVal)

/-- Python `d[k]` read: the value at the first matching key, if any. -/
def dictLookup (d : Dict) (k : String) : Option DVal :=
  match d with
  | [] => none
  | (k2, v) :: rest => if k2 = k then some v else dictLookup rest k

/-- Python `d[k] = v`: replace the value in place if the key exists
(keeping its position), otherwise append the new pair. -/
def dictSet (d : Dict) (k : String) (v : DVal) : Dict :=
  match d with
  | [] => [(k, v)]
  | (k2, v2) :: rest => if k2 = k then (k2, v) :: rest else (k2, v2) :: dictSet rest k v

/-- Python `d.update(e)`: assign each pair of `e` into `d`, in order. -/
def dictUpdate (d : Dict) (e : Dict) : Dict :=
  e.foldl (fun acc kv => dictSet acc kv.1 kv.2) d

/-- Mixed-precision dtype tag.  Modelled from the spec: the dtype tag of the
mixed-precision section ranges over the three keys of the mixed-precision
template table, `fp32` / `fp16` / `bf16`. -/
inductive MixedPrecisionDtype where
  | fp32
  | fp16
  | bf16
deriving DecidableEq, Repr

/-- The string label under which a dtype tag indexes the template table. -/
def MixedPrecisionDtype.value : MixedPrecisionDtype → String
  | .fp32 => "fp32"
  | .fp16 => "fp16"
  | .bf16 => "bf16"

/-- Mixed-precision section.  Modelled from the spec: carries the declared
dtype tag used to key the template table. -/
structure MixedPrecisionArgs where
  dtype : MixedPrecisionDtype
deriving DecidableEq, Repr

/-- Distributed section.  Modelled from the spec: partition stage,
overlap-communication, contiguous-gradients, hierarchical-partition sizing,
the two quantization toggles, the optional explicit communication dtype and
the CPU-offload request — exactly the fields `get_deepspeed_config` reads. -/
structure DistributedArgs where
  stage : Int
  overlap_comm : Bool
  contiguous_gradients : Bool
  zero_hpz_partition_size : Int
  zero_quantized_weights : Bool
  zero_quantized_gradients : Bool
  communication_dtype : Option String
  cpu_offload : Bool
deriving DecidableEq, Repr

/-- Training-parameters section.  Modelled from the spec: the three values
`get_deepspeed_config` copies verbatim into the config are carried as opaque
dict values. -/
structure TrainingParameters where
  micro_batch_size : DVal
  gradient_accumulation_steps : DVal
  gradient_clipping : DVal

/-- `dolomite_engine` argument tree.  Modelled from the spec: the resolved
training-mode configuration tree, restricted to the sections
`get_deepspeed_config` reads. -/
structure TrainingArgs where
  distributed_args : DistributedArgs
  mixed_precision_args : MixedPrecisionArgs
  training_parameters : TrainingParameters

/-- The module-level `_DEEPSPEED_MIXED_PRECISION_CONFIG` template table. -/
def _DEEPSPEED_MIXED_PRECISION_CONFIG : List (String × Dict) :=
  [("fp32", []),
   ("fp16", [("fp16", .dict [("enabled", .bool true), ("auto_cast", .bool true)])]),
   ("bf16", [("bf16", .dict [("enabled", .bool true)])])]

/-- Keyed read on the template table (Python `table[dtype]`, a `KeyError`
when the key is absent). -/
def tableLookup (t : List (String × Dict)) (k : String) : Option Dict :=
  match t with
  | [] => none
  | (k2, v) :: rest => if k2 = k then some v else tableLookup rest k

/-- The body of `get_deepspeed_config` that computes the config on the
first call, over a given template table.  Mirrors the source: build the
`zero_optimization` / batch / gradient entries from the argument tree;
deep-copy the template entry for the dtype tag and overlay the
communication-dtype overrides when one is set; merge that into the config;
finally, when CPU-offload is requested, assign the cpu offload descriptor
to both offload slots of `zero_optimization`.  Python `KeyError` /
`TypeError` points are surfaced as `Except.error`. -/
def computeDeepspeedConfig (table : List (String × Dict)) (args : TrainingArgs) :
    Except String Dict :=
  match tableLookup table args.mixed_precision_args.dtype.value with
  | none => .error ("KeyError: " ++ args.mixed_precision_args.dtype.value)
  | some base =>
    let config : Dict :=
      [("zero_optimization", .dict
         [("stage", .int args.distributed_args.stage),
          ("overlap_comm", .bool args.distributed_args.overlap_comm),
          ("contiguous_gradients", .bool args.distributed_args.contiguous_gradients),
          ("zero_hpz_partition_size", .int args.distributed_args.zero_hpz_partition_size),
          ("zero_quantized_weights", .bool args.distributed_args.zero_quantized_weights),
          ("zero_quantized_gradients", .bool args.distributed_args.zero_quantized_gradients)]),
       ("train_micro_batch_size_per_gpu", args.training_parameters.micro_batch_size),
       ("gradient_accumulation_steps", args.training_parameters.gradient_accumulation_steps),
       ("gradient_clipping", args.training_parameters.gradient_clipping)]
    -- dtype_config: dict = deepcopy(table entry); a value copy, so the
    -- overrides below never reach the module-level table
    let dtype_config : Dict := base
    let dtype_config : Dict :=
      match args.distributed_args.communication_dtype with
      | some cd =>
          dictUpdate dtype_config
            [("data_types", .dict [("grad_accum_dtype", .str cd)]),
             ("communication_data_type", .str cd)]
      | none => dtype_config
    let config := dictUpdate config dtype_config
    if args.distributed_args.cpu_offload then
      match dictLookup config "zero_optimization" with
      | some (.dict zo) =>
          let cpu_params : DVal := .dict [("device", .str "cpu"), ("pin_memory", .bool true)]
          let zo := dictSet zo "offload_param" cpu_params
          let zo := dictSet zo "offload_optimizer" cpu_params
          .ok (dictSet config "zero_optimization" (.dict zo))
      | _ => .error "TypeError: zero_optimization is not a dict"
    else .ok config

/-- The mutable module-level state of `deepspeed.py`: the mixed-precision
template table and the `_DEEPSPEED_CONFIG` cache cell. -/
structure DeepspeedState where
  mixedPrecisionConfig : List (String × Dict)
  deepspeedConfig : Option Dict

/-- Module state at process start: the literal template table, empty cache. -/
def initialDeepspeedState : DeepspeedState :=
  { mixedPrecisionConfig := _DEEPSPEED_MIXED_PRECISION_CONFIG
    deepspeedConfig := none }

/-- `get_deepspeed_config`: when `_DEEPSPEED_CONFIG` is already set, return
it unchanged; otherwise compute the config from the argument tree and the
template table, publish it in the cache and return it. -/
def get_deepspeed_config (args : TrainingArgs) (s : DeepspeedState) :
    Except String Dict × DeepspeedState :=
  match s.deepspeedConfig with
  | some c => (.ok c, s)
  | none =>
    match computeDeepspeedConfig s.mixedPrecisionConfig args with
    | .ok c => (.ok c, { s with deepspeedConfig := some c })
    | .error e => (.error e, s)

end Dolomite

namespace Engine

/-- A sequence errs whenever its second check errs. -/
theorem isErr_seqE_right (x y : Except String Unit) (h : isErr y = true) :
    isErr (seqE x y) = true := by
  cases x with
  | error e => rfl
  | ok u => exact h

/-- A successful sequence has both checks successful. -/
theorem seqE_ok {x y : Except String Unit} (h : seqE x y = .ok ()) :
    x = .ok () ∧ y = .ok () := by
  cases x with
  | error e => exact absurd h (by intro hh; cases hh)
  | ok u => exact ⟨rfl, h⟩

/-- If a tuning section's own post-init errs, its resolution errs. -/
theorem tuning_resolve_err_of_postInit (a : TuningArgs)
    (h : isErr a.postInit = true) : isErr a.resolve = true := by
  unfold TuningArgs.resolve
  exact isErr_seqE_right _ _ (isErr_seqE_right _ _ h)

end Engine

namespace Engine

/-- Claim C1, counterexample: a tuning section with
`tuning_method = prompt_tuning` and no prompt-tuning sub-config resolves
successfully — the code checks only the forbidden directions, so the claimed
failure naming "prompt_tuning_args" does not occur. -/
theorem tuningArgs_missing_prompt_tuning_subconfig_accepted :
    TuningArgs.resolve ⟨some .prompt_tuning, none, none⟩ = .ok () := rfl

/-- Claim C1 (amended): a tag's sub-config is forbidden whenever another tag
is selected — construction with `tuning_method = full_finetuning` and a
prompt-tuning or lora sub-config present fails; `prompt_tuning` with a lora
sub-config fails; `lora` with a prompt-tuning sub-config fails.  (The code
does not require the selected tag's own sub-config to be present:
`prompt_tuning` with no prompt-tuning sub-config succeeds.) -/
theorem tuningArgs_forbidden_subconfig_rules :
    ∀ (p : PromptTuningArgs) (l : LoRAArgs)
      (op : Option PromptTuningArgs) (ol : Option LoRAArgs),
      isErr (TuningArgs.resolve ⟨some .full_finetuning, some p, ol⟩) = true ∧
      isErr (TuningArgs.resolve ⟨some .full_finetuning, op, some l⟩) = true ∧
      isErr (TuningArgs.resolve ⟨some .prompt_tuning, op, some l⟩) = true ∧
      isErr (TuningArgs.resolve ⟨some .lora, some p, ol⟩) = true := by
  intro p l op ol
  refine ⟨?_, ?_, ?_, ?_⟩
  · exact tuning_resolve_err_of_postInit _ rfl
  · apply tuning_resolve_err_of_postInit
    cases op <;> rfl
  · exact tuning_resolve_err_of_postInit _ rfl
  · exact tuning_resolve_err_of_postInit _ rfl

end Engine

namespace Engine

/-- A valid model section (generic auto-class, whitelisted dtype). -/
def modelOk : ModelArgs :=
  ⟨some "gpt2", some "AutoModelForCausalLM", "float32", false, none⟩

/-- A valid tuning section (full fine-tuning, no sub-configs). -/
def tuningOk : TuningArgs := ⟨some .full_finetuning, none, none⟩

/-- A valid dataset entry. -/
def datasetOk : DatasetArgs :=
  ⟨some "JSONLinesDataset", [], some "d1", "__input__", "__output__", some 1, none, none⟩

/-- A valid save section. -/
def saveOk : SaveArgs := ⟨some "/tmp/x", some 100⟩

/-- A training tree that is valid in every checked respect but omits the
`training_parameters` section. -/
def trainingNoParams : TrainingArgs :=
  ⟨⟨42⟩, ⟨none, none⟩, some modelOk, some tuningOk, ⟨some "ApexFusedAdam", []⟩,
   ⟨"cosine", 200⟩, [datasetOk], some saveOk, none, none,
   ⟨"INFO", 1, none, none⟩, ⟨3, .torch, false, false, false, false⟩⟩

/-- Claim C2, counterexample: a training-mode raw config that omits the
training-parameters section resolves successfully — `training_parameters`
is an optional field that no post-init check inspects. -/
theorem training_resolve_accepts_missing_training_parameters :
    trainingNoParams.training_parameters = none ∧
      TrainingArgs.resolve true trainingNoParams = .ok () := ⟨rfl, rfl⟩

/-- If a whole training-mode resolution succeeds, the tree's own post-init
succeeded. -/
theorem training_resolve_ok_postInit {ibm : Bool} {t : TrainingArgs}
    (h : TrainingArgs.resolve ibm t = .ok ()) : t.postInit = .ok () := by
  unfold TrainingArgs.resolve at h
  exact (seqE_ok (seqE_ok (seqE_ok (seqE_ok (seqE_ok (seqE_ok (seqE_ok h).2).2).2).2).2).2).2

/-- If a whole inference-mode resolution succeeds, the tree's own post-init
succeeded. -/
theorem inference_resolve_ok_postInit {ibm : Bool} {t : InferenceArgs}
    (h : InferenceArgs.resolve ibm t = .ok ()) : t.postInit = .ok () := by
  unfold InferenceArgs.resolve at h
  exact (seqE_ok (seqE_ok (seqE_ok (seqE_ok (seqE_ok h).2).2).2).2).2

/-- If a whole export-mode resolution succeeds, the tree's own post-init
succeeded. -/
theorem export_resolve_ok_postInit {ibm : Bool} {t : ExportArgs}
    (h : ExportArgs.resolve ibm t = .ok ()) : t.postInit = .ok () := by
  unfold ExportArgs.resolve at h
  exact (seqE_ok (seqE_ok (seqE_ok h).2).2).2

/-- Claim C2 (amended): each mode's resolution fails when a mandatory
top-level section for that mode is omitted — training requires the
save-section; inference requires the generation-parameters section and the
output location; export requires the load-section and the export path.
(The training-parameters section is optional: omitting it does not make
training-mode resolution fail.) -/
theorem mode_mandatory_sections :
    (∀ (ibm : Bool) (t : TrainingArgs),
        TrainingArgs.resolve ibm t = .ok () → t.save_args.isSome = true) ∧
    (∀ (ibm : Bool) (t : InferenceArgs),
        InferenceArgs.resolve ibm t = .ok () →
          t.generation_parameters.isSome = true ∧ t.output_dir.isSome = true) ∧
    (∀ (ibm : Bool) (t : ExportArgs),
        ExportArgs.resolve ibm t = .ok () →
          t.load_args.isSome = true ∧ t.export_path.isSome = true) := by
  refine ⟨?_, ?_, ?_⟩
  · intro ibm t h
    have hp := training_resolve_ok_postInit h
    unfold TrainingArgs.postInit at hp
    rcases t with ⟨ra, tk, ma, tu, oa, lra, ds, sa, la, tp, lg, da⟩
    cases ma with
    | none => exact Except.noConfusion hp
    | some m =>
      cases tu with
      | none => exact Except.noConfusion hp
      | some u =>
        cases sa with
        | none => exact Except.noConfusion hp
        | some s => rfl
  · intro ibm t h
    have hp := inference_resolve_ok_postInit h
    unfold InferenceArgs.postInit at hp
    rcases t with ⟨ra, tk, ma, tu, ds, la, gp, lg, od⟩
    cases ma with
    | none => exact Except.noConfusion hp
    | some m =>
      cases tu with
      | none => exact Except.noConfusion hp
      | some u =>
        cases gp with
        | none => exact Except.noConfusion hp
        | some g =>
          cases od with
          | none => exact Except.noConfusion hp
          | some o => exact ⟨rfl, rfl⟩
  · intro ibm t h
    have hp := export_resolve_ok_postInit h
    unfold ExportArgs.postInit at hp
    rcases t with ⟨tk, ma, tu, la, lg, ep⟩
    cases ma with
    | none => exact Except.noConfusion hp
    | some m =>
      cases tu with
      | none => exact Except.noConfusion hp
      | some u =>
        cases la with
        | none => exact Except.noConfusion hp
        | some l =>
          cases ep with
          | none => exact Except.noConfusion hp
          | some e => exact ⟨rfl, rfl⟩

/-- A valid inference tree. -/
def inferOk : InferenceArgs :=
  ⟨⟨42⟩, ⟨none, none⟩, some modelOk, some tuningOk, [datasetOk], none,
   some ⟨some 8, none, some 20, none, none, none⟩, ⟨"INFO", 1, none, none⟩,
   some "/tmp/out"⟩

/-- A valid export tree. -/
def exportOk : ExportArgs :=
  ⟨⟨none, none⟩, some modelOk, some tuningOk, some ⟨some "/tmp/ckpt", some 10⟩,
   ⟨"INFO", 1, none, none⟩, some "/tmp/exp"⟩

/-- Witness for claim C2's amended theorem: applying it at concrete valid
trees for all three modes. -/
theorem mode_mandatory_sections_witness :
    trainingNoParams.save_args.isSome = true ∧
      (inferOk.generation_parameters.isSome = true ∧ inferOk.output_dir.isSome = true) ∧
      (exportOk.load_args.isSome = true ∧ exportOk.export_path.isSome = true) :=
  ⟨mode_mandatory_sections.1 true trainingNoParams rfl,
   mode_mandatory_sections.2.1 true inferOk rfl,
   mode_mandatory_sections.2.2 true exportOk rfl⟩

end Engine

namespace Engine

/-- Claim C3, failing evaluation: `to_dict` does convert nested nodes to
plain mappings, enum members to their labels and class objects to their
names, but a field holding a list of non-node scalars is mapped to the
empty list — the list branch appends only `BaseArgs` elements and silently
drops every other element, so the claimed pass-through of scalar lists
fails (here `additional_special_tokens` loses both strings). -/
theorem to_dict_drops_non_node_list_elements :
    to_dict
      [("model_class", .typ "AutoModelForCausalLM"),
       ("tuning_method", .enum "full_finetuning"),
       ("random_args", .node [("seed", .int 42)]),
       ("additional_special_tokens", .pylist [.str "<a>", .str "<b>"])]
    = .pydict
      [("model_class", .str "AutoModelForCausalLM"),
       ("tuning_method", .str "full_finetuning"),
       ("random_args", .pydict [("seed", .int 42)]),
       ("additional_special_tokens", .pylist [])] := rfl

/-- Claim C7: dataset-list resolution fails on the empty list; it succeeds
exactly when the list is non-empty with pairwise-distinct `data_name`s; a
dataset entry's construction succeeds only with a strictly positive
sampling ratio; and a well-formed entry validates and a singleton list of
it resolves. -/
theorem dataset_list_validation :
    (isErr (_check_datasets []) = true) ∧
    (∀ ds : List DatasetArgs, _check_datasets ds = .ok () ↔
        ds ≠ [] ∧ (ds.map (fun d => d.data_name)).Nodup) ∧
    (∀ d : DatasetArgs, d.postInit = .ok () →
        ∃ r, d.data_sampling_ratio = some r ∧ 0 < r) ∧
    (∀ (d : DatasetArgs) (r : Int), d.class_name.isSome = true →
        d.data_name.isSome = true → d.data_sampling_ratio = some r → 0 < r →
        d.postInit = .ok () ∧ _check_datasets [d] = .ok ()) := by
  refine ⟨rfl, ?_, ?_, ?_⟩
  · intro ds
    unfold _check_datasets
    split_ifs with h0 hd
    · constructor
      · intro h
        simp at h
      · intro h
        exact absurd (List.length_eq_zero.mp h0) h.1
    · refine iff_of_true rfl ⟨fun he => h0 (by simp [he]), ?_⟩
      have hlen : (ds.map (fun d => d.data_name)).dedup.length
          = (ds.map (fun d => d.data_name)).length := by
        rw [List.length_map]
        exact hd.symm
      have hded := ((ds.map (fun d => d.data_name)).dedup_sublist).eq_of_length hlen
      exact List.dedup_eq_self.mp hded
    · constructor
      · intro h
        simp at h
      · intro h
        exact absurd (show ds.length = ((ds.map (fun d => d.data_name)).dedup).length by
          rw [List.dedup_eq_self.mpr h.2, List.length_map]) hd
  · intro d h
    rcases d with ⟨cn, ca, dnm, fi, fo, dr, mi, mo⟩
    cases cn with
    | none => simp [DatasetArgs.postInit] at h
    | some c =>
      cases dr with
      | none => simp [DatasetArgs.postInit] at h
      | some r =>
        cases dnm with
        | none => simp [DatasetArgs.postInit] at h
        | some n =>
          simp only [DatasetArgs.postInit] at h
          by_cases hp : r > 0
          · exact ⟨r, rfl, hp⟩
          · rw [if_neg hp] at h
            exact Except.noConfusion h
  · intro d r hc hn hr hpos
    rcases d with ⟨cn, ca, dnm, fi, fo, dr, mi, mo⟩
    cases cn with
    | none => exact absurd hc (by simp)
    | some c =>
      cases dnm with
      | none => exact absurd hn (by simp)
      | some n =>
        replace hr : dr = some r := hr
        subst hr
        constructor
        · simp only [DatasetArgs.postInit]
          exact if_pos hpos
        · unfold _check_datasets
          rw [if_neg (by simp), if_pos (by simp)]

/-- Witness for claim C7's theorem: applying the success clause at the
concrete valid dataset entry. -/
theorem dataset_list_validation_witness :
    datasetOk.postInit = .ok () ∧ _check_datasets [datasetOk] = .ok () :=
  dataset_list_validation.2.2.2 datasetOk 1 rfl rfl rfl (by decide)

end Engine

namespace Engine

/-- Matching a contiguous pattern at the head of a character list. -/
def subListAt : List Char → List Char → Bool
  | [], _ => true
  | _ :: _, [] => false
  | a :: as, b :: bs => a == b && subListAt as bs

/-- Contiguous-substring search over character lists. -/
def subListIn : List Char → List Char → Bool
  | needle, [] => subListAt needle []
  | needle, b :: bs => subListAt needle (b :: bs) || subListIn needle bs

/-- Whether `needle` occurs contiguously in `hay`. -/
def hasSubstr (needle hay : String) : Bool :=
  subListIn needle.data hay.data

/-- The assertion message produced for `dtype = "int8"`
(`f"unexpected dtype '{self.dtype}'"` after `self.dtype` became `torch.int8`). -/
def int8DtypeErrMsg : String := "unexpected dtype " ++ sq ++ "torch.int8" ++ sq

/-- Claim C8, counterexample: constructing a model section with the dtype
string `"float"` succeeds — `getattr(torch, "float")` is the alias of
`torch.float32`, which passes the whitelist assertion — although `"float"`
is not one of the three whitelisted names, so construction does not succeed
only for the three whitelisted name strings. -/
theorem model_dtype_alias_accepted :
    ModelArgs.postInit true ⟨some "gpt2", some "AutoModelForCausalLM", "float", false, none⟩
        = .ok (.AutoModelForCausalLM, .float32) ∧
      "float" ∉ (["float32", "float16", "bfloat16"] : List String) :=
  ⟨rfl, by decide⟩

/-- Claim C8 (amended): a model section's construction succeeds only when
the declared dtype string resolves through `getattr(torch, ·)` to one of
the three whitelisted torch floating dtypes `float32` / `float16` /
`bfloat16` (torch alias names such as `"float"` and `"half"` resolve to
whitelisted dtypes and are therefore also accepted); and constructing with
dtype `"int8"` fails with the assertion message, which names both the
`dtype` field and the offending value. -/
theorem model_dtype_resolved_whitelist :
    (∀ (ibm : Bool) (m : ModelArgs) (r : ResolvedModelClass × TorchDtype),
        ModelArgs.postInit ibm m = .ok r →
          torch_getattr_dtype m.dtype = some r.2 ∧
          (r.2 = .float32 ∨ r.2 = .float16 ∨ r.2 = .bfloat16)) ∧
    (∀ (ibm tr : Bool) (mn : String),
        ModelArgs.postInit ibm ⟨some mn, some "AutoModelForCausalLM", "int8", tr, none⟩
            = .error int8DtypeErrMsg ∧
          hasSubstr "dtype" int8DtypeErrMsg = true ∧
          hasSubstr "int8" int8DtypeErrMsg = true) := by
  constructor
  · intro ibm m r h
    rcases m with ⟨mn, mc, dt, tr, ai⟩
    cases mn with
    | none => simp [ModelArgs.postInit] at h
    | some n =>
      cases mc with
      | none => simp [ModelArgs.postInit] at h
      | some c =>
        simp only [ModelArgs.postInit] at h
        cases hcr : resolveModelClass ibm ai c with
        | error e =>
          simp only [hcr] at h
          exact Except.noConfusion h
        | ok cls =>
          simp only [hcr] at h
          cases hdt : torch_getattr_dtype dt with
          | none =>
            simp only [hdt] at h
            exact Except.noConfusion h
          | some d =>
            simp only [hdt] at h
            by_cases hw : d = .float32 ∨ d = .float16 ∨ d = .bfloat16
            · rw [if_pos hw] at h
              have hr : r = (cls, d) := (Except.ok.inj h).symm
              subst hr
              exact ⟨rfl, hw⟩
            · rw [if_neg hw] at h
              exact Except.noConfusion h
  · intro ibm tr mn
    exact ⟨rfl, rfl, rfl⟩

/-- Witness for claim C8's amended theorem: the resolved-whitelist clause
applied at the concrete valid model section, and the `"int8"` clause at a
concrete call. -/
theorem model_dtype_resolved_whitelist_witness :
    (torch_getattr_dtype modelOk.dtype = some TorchDtype.float32 ∧
        (TorchDtype.float32 = TorchDtype.float32 ∨
          TorchDtype.float32 = TorchDtype.float16 ∨
          TorchDtype.float32 = TorchDtype.bfloat16)) ∧
      ModelArgs.postInit true ⟨some "gpt2", some "AutoModelForCausalLM", "int8", false, none⟩
        = .error int8DtypeErrMsg :=
  ⟨model_dtype_resolved_whitelist.1 true modelOk (.AutoModelForCausalLM, .float32) rfl,
   (model_dtype_resolved_whitelist.2 true false "gpt2").1⟩

end Engine

namespace Engine

/-- Claim C9: with `attention_implementation` set, construction bypasses
the generic transformer-class lookup and installs the specialized
`GPTMegatronForCausalLM` class — failing with the dependency-missing error
when the `ibm_models` package is unavailable, and succeeding for an
arbitrary `model_class` string when it is available; with
`attention_implementation` unset, construction succeeds only when
`model_class` names one of the two generic auto-model classes and fails
otherwise. -/
theorem model_class_attention_dispatch :
    (∀ (m : ModelArgs) (ai : AttentionImplementation),
        m.attention_implementation = some ai → m.model_name.isSome = true →
        m.model_class.isSome = true →
        ModelArgs.postInit false m
          = .error "please pip install ibm-models: https://github.ibm.com/ai-models-architectures/ibm-models") ∧
    (∀ (ibm : Bool) (m : ModelArgs) (r : ResolvedModelClass × TorchDtype)
        (ai : AttentionImplementation),
        m.attention_implementation = some ai → ModelArgs.postInit ibm m = .ok r →
        r.1 = .GPTMegatronForCausalLM) ∧
    (∀ (mn c : String) (tr : Bool) (ai : AttentionImplementation),
        ModelArgs.postInit true ⟨some mn, some c, "float32", tr, some ai⟩
          = .ok (.GPTMegatronForCausalLM, .float32)) ∧
    (∀ (ibm : Bool) (m : ModelArgs) (r : ResolvedModelClass × TorchDtype),
        m.attention_implementation = none → ModelArgs.postInit ibm m = .ok r →
        (m.model_class = some "AutoModelForCausalLM" ∨
          m.model_class = some "AutoModelForSeq2SeqLM")) ∧
    (∀ (ibm tr : Bool) (mn c dt : String), c ≠ "AutoModelForCausalLM" →
        c ≠ "AutoModelForSeq2SeqLM" →
        isErr (ModelArgs.postInit ibm ⟨some mn, some c, dt, tr, none⟩) = true) := by
  refine ⟨?_, ?_, ?_, ?_, ?_⟩
  · intro m ai hai hmn hmc
    rcases m with ⟨mn, mc, dt, tr, af⟩
    replace hai : af = some ai := hai
    subst hai
    cases mn with
    | none => exact absurd hmn (by simp)
    | some n =>
      cases mc with
      | none => exact absurd hmc (by simp)
      | some c => rfl
  · intro ibm m r ai hai h
    rcases m with ⟨mn, mc, dt, tr, af⟩
    replace hai : af = some ai := hai
    subst hai
    cases mn with
    | none => exact Except.noConfusion h
    | some n =>
      cases mc with
      | none => exact Except.noConfusion h
      | some c =>
        simp only [ModelArgs.postInit] at h
        cases ibm with
        | false => exact Except.noConfusion h
        | true =>
          simp only [resolveModelClass, if_pos] at h
          cases hdt : torch_getattr_dtype dt with
          | none =>
            simp only [hdt] at h
            exact Except.noConfusion h
          | some d =>
            simp only [hdt] at h
            by_cases hw : d = .float32 ∨ d = .float16 ∨ d = .bfloat16
            · rw [if_pos hw] at h
              have : r = (.GPTMegatronForCausalLM, d) := (Except.ok.inj h).symm
              rw [this]
            · rw [if_neg hw] at h
              exact Except.noConfusion h
  · intro mn c tr ai
    rfl
  · intro ibm m r hai h
    rcases m with ⟨mn, mc, dt, tr, af⟩
    replace hai : af = none := hai
    subst hai
    cases mn with
    | none => exact Except.noConfusion h
    | some n =>
      cases mc with
      | none => exact Except.noConfusion h
      | some c =>
        by_cases h1 : c = "AutoModelForCausalLM"
        · exact Or.inl (by rw [h1])
        · by_cases h2 : c = "AutoModelForSeq2SeqLM"
          · exact Or.inr (by rw [h2])
          · have hcr : resolveModelClass ibm none c
                = .error "attention implementation is not supported with AutoModelForCausalLM or AutoModelForSeq2SeqLM" := by
              unfold resolveModelClass
              rw [if_neg h1, if_neg h2]
            simp only [ModelArgs.postInit, hcr] at h
            exact Except.noConfusion h
  · intro ibm tr mn c dt h1 h2
    have hcr : resolveModelClass ibm none c
        = .error "attention implementation is not supported with AutoModelForCausalLM or AutoModelForSeq2SeqLM" := by
      unfold resolveModelClass
      rw [if_neg h1, if_neg h2]
    simp only [ModelArgs.postInit, hcr]
    rfl

/-- A model section with the attention-implementation override set. -/
def modelAttn : ModelArgs :=
  ⟨some "gpt-megatron", some "GPTMegatronForCausalLM", "float32", false,
   some .flash_attention⟩

/-- Witness for claim C9's theorem: the dependency-missing clause and the
generic-class-required clause applied at concrete model sections. -/
theorem model_class_attention_dispatch_witness :
    ModelArgs.postInit false modelAttn
        = .error "please pip install ibm-models: https://github.ibm.com/ai-models-architectures/ibm-models" ∧
      isErr (ModelArgs.postInit true ⟨some "gpt2", some "BertModel", "float32", false, none⟩)
        = true :=
  ⟨model_class_attention_dispatch.1 modelAttn .flash_attention rfl rfl rfl,
   model_class_attention_dispatch.2.2.2.2 true false "gpt2" "BertModel" "float32"
     (by decide) (by decide)⟩

end Engine

namespace Dolomite

/-- Over the real module-level template table, the first-call computation
never fails, for any argument tree. -/
theorem computeDeepspeedConfig_ok (args : TrainingArgs) :
    ∃ c, computeDeepspeedConfig _DEEPSPEED_MIXED_PRECISION_CONFIG args = .ok c := by
  obtain ⟨⟨st, oc, cg, hpz, zqw, zqg, cd, off⟩, ⟨dt⟩, ⟨mbs, gas, gc⟩⟩ := args
  cases dt <;> cases cd <;> cases off <;> exact ⟨_, rfl⟩

/-- Claim C6: on an argument tree that passed training-mode validation,
`get_deepspeed_config` cannot fail — every call over the module's template
table returns a config (the field accesses are total on the validated tree,
and the dtype tag is always a key of the mixed-precision table). -/
theorem get_deepspeed_config_total_on_validated_args :
    (∀ (args : TrainingArgs) (cache : Option Dict),
        ∃ c, (get_deepspeed_config args
          ⟨_DEEPSPEED_MIXED_PRECISION_CONFIG, cache⟩).1 = .ok c) ∧
    (∀ d : MixedPrecisionDtype,
        (tableLookup _DEEPSPEED_MIXED_PRECISION_CONFIG d.value).isSome = true) := by
  constructor
  · intro args cache
    cases cache with
    | some c => exact ⟨c, rfl⟩
    | none =>
      obtain ⟨c, hc⟩ := computeDeepspeedConfig_ok args
      exact ⟨c, by simp [get_deepspeed_config, hc]⟩
  · intro d
    cases d <;> rfl

/-- Claim C4: within one process, a second call to `get_deepspeed_config`
returns exactly the value the first call returned, even with a different
argument tree — the config is computed at most once and later calls return
the cached value. -/
theorem get_deepspeed_config_single_computation_cache :
    ∀ (a1 a2 : TrainingArgs) (cache : Option Dict),
      (get_deepspeed_config a2
          (get_deepspeed_config a1 ⟨_DEEPSPEED_MIXED_PRECISION_CONFIG, cache⟩).2).1
        = (get_deepspeed_config a1 ⟨_DEEPSPEED_MIXED_PRECISION_CONFIG, cache⟩).1 := by
  intro a1 a2 cache
  cases cache with
  | some c => rfl
  | none =>
    obtain ⟨c, hc⟩ := computeDeepspeedConfig_ok a1
    simp [get_deepspeed_config, hc]

/-- Claim C10: a call to `get_deepspeed_config` leaves the module-level
mixed-precision template table unchanged — the dtype-keyed base sub-config
is deep-copied (modelled as a value copy) before the communication-dtype
overrides are applied, so the overrides never reach the template. -/
theorem get_deepspeed_config_preserves_template :
    ∀ (args : TrainingArgs) (s : DeepspeedState),
      ((get_deepspeed_config args s).2).mixedPrecisionConfig = s.mixedPrecisionConfig := by
  intro args s
  unfold get_deepspeed_config
  cases s.deepspeedConfig with
  | some c => rfl
  | none =>
    cases computeDeepspeedConfig s.mixedPrecisionConfig args with
    | ok c => rfl
    | error e => rfl

end Dolomite

namespace Dolomite

/-- Claim C5: for an argument tree with dtype tag `bf16` and
`cpu_offload = true`, the first call to `get_deepspeed_config` returns a
config with brain-float mode enabled and both offload slots of
`zero_optimization` set to the cpu descriptor; when an explicit
communication dtype is set, the config additionally carries it as
`communication_data_type` and as the gradient-accumulation dtype override. -/
theorem get_deepspeed_config_bf16_cpu_offload :
    ∀ args : TrainingArgs,
      args.mixed_precision_args.dtype = .bf16 →
      args.distributed_args.cpu_offload = true →
      ∃ c, (get_deepspeed_config args initialDeepspeedState).1 = .ok c ∧
        dictLookup c "bf16" = some (.dict [("enabled", .bool true)]) ∧
        (∃ zo : Dict, dictLookup c "zero_optimization" = some (.dict zo) ∧
          dictLookup zo "offload_param"
            = some (.dict [("device", .str "cpu"), ("pin_memory", .bool true)]) ∧
          dictLookup zo "offload_optimizer"
            = some (.dict [("device", .str "cpu"), ("pin_memory", .bool true)])) ∧
        (∀ cd, args.distributed_args.communication_dtype = some cd →
          dictLookup c "communication_data_type" = some (.str cd) ∧
          dictLookup c "data_types" = some (.dict [("grad_accum_dtype", .str cd)])) := by
  intro args hdt hoff
  obtain ⟨⟨st, oc, cg, hpz, zqw, zqg, cd, off⟩, ⟨dt⟩, ⟨mbs, gas, gc⟩⟩ := args
  replace hdt : dt = .bf16 := hdt
  replace hoff : off = true := hoff
  subst hdt
  subst hoff
  cases cd with
  | none =>
    refine ⟨_, rfl, rfl, ⟨_, rfl, rfl, rfl⟩, ?_⟩
    intro c0 h
    exact Option.noConfusion h
  | some cd0 =>
    refine ⟨_, rfl, rfl, ⟨_, rfl, rfl, rfl⟩, ?_⟩
    intro c0 h
    have hc : cd0 = c0 := Option.some.inj h
    subst hc
    exact ⟨rfl, rfl⟩

/-- A concrete argument tree with dtype `bf16`, CPU offload and an explicit
communication dtype. -/
def bf16OffloadArgs : TrainingArgs :=
  ⟨⟨3, false, false, 0, false, false, some "fp32", true⟩, ⟨.bf16⟩,
   ⟨.int 4, .int 1, .int 1⟩⟩

/-- Witness for claim C5's theorem: applying it at a concrete argument
tree. -/
theorem get_deepspeed_config_bf16_cpu_offload_witness :
    ∃ c, (get_deepspeed_config bf16OffloadArgs initialDeepspeedState).1 = .ok c ∧
      dictLookup c "bf16" = some (.dict [("enabled", .bool true)]) ∧
      (∃ zo : Dict, dictLookup c "zero_optimization" = some (.dict zo) ∧
        dictLookup zo "offload_param"
          = some (.dict [("device", .str "cpu"), ("pin_memory", .bool true)]) ∧
        dictLookup zo "offload_optimizer"
          = some (.dict [("device", .str "cpu"), ("pin_memory", .bool true)])) ∧
      (∀ cd, bf16OffloadArgs.distributed_args.communication_dtype = some cd →
        dictLookup c "communication_data_type" = some (.str cd) ∧
        dictLookup c "data_types" = some (.dict [("grad_accum_dtype", .str cd)])) :=
  get_deepspeed_config_bf16_cpu_offload bf16OffloadArgs rfl rfl

end Dolomite
